import Mathlib

/-!
# WeTalk realtime delivery core — a shallow embedding

This development embeds the realtime delivery fabric of the WeTalk chat
backend: the entities, the message repository operations used by the
websocket delivery handler, the handler's inbound pipeline
(classification, persist, fan-out, read acknowledgment), the in-memory
hub event loop, and the Redis-backed distributed hub's send and
subscriber paths.  Each definition mirrors one Go function of the
repository; theorems at the end settle the specification claims.
-/

set_option autoImplicit false

namespace WeTalk

/-! ## Entities (internal/entity) -/

/-- Go struct `entity.Message` — a persisted chat message. -/
structure Message where
  id : String
  chatId : String
  senderId : String
  message : String
  timestamp : Int
  isRead : Bool
deriving DecidableEq

/-- Go struct `entity.User` — the fields the delivery core reads. -/
structure User where
  id : String
  name : String
  isOnline : Bool
deriving DecidableEq

/-- Go struct `entity.Chat` — the fields the delivery core reads. -/
structure Chat where
  id : String
  name : String
deriving DecidableEq

/-- Go struct `entity.ChatParticipant` — the fields the delivery core reads. -/
structure ChatParticipant where
  id : String
  chatId : String
  userId : String
deriving DecidableEq

/-! ## Inbound / outbound frames (internal/delivery/websocket) -/

/-- Go struct `websocket.IncomingMessage`. -/
structure IncomingMessage where
  message : String
  chatId : String
  timestamp : Int
deriving DecidableEq

/-- Go struct `websocket.MessageReadAck`. -/
structure MessageReadAck where
  messageId : String
  chatId : String
deriving DecidableEq

/-- Go struct `websocket.OutgoingMessage`.  Field order follows the source;
`chatId` is the struct's last field. -/
structure OutgoingMessage where
  messageId : String
  userId : String
  userName : String
  message : String
  timestamp : Int
  isRead : Bool
  chatId : String
deriving DecidableEq

/-! ## Message repository (internal/repository/message_repository.go)

The `messages` Mongo collection is modelled as a list of documents.
Mongo enforces a unique index on `_id`, and ids are freshly drawn
UUIDs, so at most one document matches an `_id` filter. -/

/-- Function `messageRepository.Get`: `FindOne` on the `_id` filter — the first
document whose id matches, if any. -/
def msgGet (store : List Message) (messageId : String) : Option Message :=
  store.find? (fun d => d.id == messageId)

/-- Function `messageRepository.Create`: assign the fresh id, insert, return the id. -/
def msgCreate (store : List Message) (freshId : String) (m : Message) :
    String × List Message :=
  (freshId, store ++ [{ m with id := freshId }])

/-- Function `messageRepository.Update`: `UpdateOne` on the `_id` filter, with a
`$set` of the `message`, `isRead` and `timestamp` fields only.  With the
unique `_id` index at most one document matches, so updating every match
is the same operation. -/
def msgUpdate (store : List Message) (m : Message) : List Message :=
  store.map (fun d =>
    if d.id == m.id then
      { d with message := m.message, isRead := m.isRead, timestamp := m.timestamp }
    else d)

/-- Function `messageUsecase.MarkAsRead`: load the message, set `IsRead`, update.
A failing load propagates the error and nothing is written. -/
def MarkAsRead (store : List Message) (messageId : String) :
    Except Unit (List Message) :=
  match msgGet store messageId with
  | none => .error ()
  | some m => .ok (msgUpdate store { m with isRead := true })

/-! ## Sessions -/

/-- Go struct `ws.UserClient` as the hub sees it: its user id plus a session
identity (`sid`) distinguishing distinct connections of one user, so
that closing a queue or running a hook can be attributed to the right
connection. -/
structure Session where
  sid : Nat
  userId : String
deriving DecidableEq

/-- Function `WebsocketHandler.handleReadAcknowledgment`: run `MarkAsRead`;
errors are only logged.  The result pairs the store after the call with
the list of fan-out sends the path performed (always none). -/
def handleReadAcknowledgment (store : List Message) (client : Session)
    (readAck : MessageReadAck) : List Message × List (String × OutgoingMessage) :=
  match MarkAsRead store readAck.messageId with
  | .error _ => (store, [])
  | .ok store2 => (store2, [])

/-! ## Delivery handler pipeline (internal/delivery/websocket/handler.go)

An inbound frame arrives as raw bytes; the handler tries to decode it
as a read ack and, failing the discrimination test, as a regular
message.  A frame is embedded by the two decode results (Go's
`json.Unmarshal` into the two structs succeeds or fails independently:
unknown JSON fields are ignored and absent fields yield zero values). -/

/-- The two JSON decodings of one raw inbound frame. -/
structure Frame where
  readAckDecode : Option MessageReadAck
  incomingDecode : Option IncomingMessage
deriving DecidableEq

/-- The repository environment the handler consults, one field per
usecase call: `chatUc.Get`, `userUc.Get`, `chatUc.GetParticipants`,
`userUc.GetOnlineUser`, and the fresh UUID drawn by
`messageRepository.Create` (`none` models a failing insert). -/
structure Env where
  chatGet : String → Option Chat
  userGet : String → Option User
  getParticipants : String → Option (List ChatParticipant)
  getOnlineUser : List String → Option (List User)
  freshId : Option String

/-- Observable events of one `handleMessage` call, in program order. -/
inductive HEvent where
  | persist (messageId : String)
  | send (userId : String) (msg : OutgoingMessage)
deriving DecidableEq

/-- The outcome of one `handleMessage` call: which branch the
discrimination test took, the message store after the call, the
`Hub.SendToClient` calls issued, the chats deleted by the empty-chat
cleanup, and the event trace. -/
structure HandleOutcome where
  tookReadAck : Bool
  store : List Message
  sends : List (String × OutgoingMessage)
  deletedChats : List String
  trace : List HEvent
deriving DecidableEq

/-- One step of the fan-out loop of `handleMessage`: the loop skips
the sender (`continue`), and the spawned goroutine returns early for
participants missing from the online map (`userMap`); otherwise it
marshals the one outbound frame and calls `Hub.SendToClient`. -/
def fanoutStep (clientUserId : String) (userMap : List String)
    (outgoingMsg : OutgoingMessage) (p : ChatParticipant) :
    Option (String × OutgoingMessage) :=
  if p.userId = clientUserId then none
  else if p.userId ∈ userMap then some (p.userId, outgoingMsg)
  else none

/-- The message path of `WebsocketHandler.handleMessage` (everything
after the read-ack discrimination test): decode, chat lookup, sender
lookup, persist, participant fetch, empty-chat cleanup, online filter,
fan-out.  Every error path logs and returns.  The fan-out goroutines
each re-check the online map and marshal the same `OutgoingMessage`
value; the `ChatId` field of the Go struct is never assigned, so it
keeps its zero value `""`. -/
def messagePath (env : Env) (store : List Message) (clientUserId : String)
    (frame : Frame) : HandleOutcome :=
  match frame.incomingDecode with
  | none => ⟨false, store, [], [], []⟩
  | some message =>
    match env.chatGet message.chatId with
    | none => ⟨false, store, [], [], []⟩
    | some chat =>
      match env.userGet clientUserId with
      | none => ⟨false, store, [], [], []⟩
      | some sender =>
        match env.freshId with
        | none => ⟨false, store, [], [], []⟩
        | some messageId =>
          let messageEntity : Message :=
            ⟨messageId, message.chatId, clientUserId, message.message,
              message.timestamp, false⟩
          let store1 := store ++ [messageEntity]
          match env.getParticipants chat.id with
          | none => ⟨false, store1, [], [], [.persist messageId]⟩
          | some participants =>
            if participants.length = 0 then
              ⟨false, store1, [], [chat.id], [.persist messageId]⟩
            else
              let userIds := participants.map (fun p => p.userId)
              match env.getOnlineUser userIds with
              | none => ⟨false, store1, [], [], [.persist messageId]⟩
              | some onlineUsers =>
                let userMap := onlineUsers.map (fun u => u.id)
                let outgoingMsg : OutgoingMessage :=
                  ⟨messageId, clientUserId, sender.name, message.message,
                    message.timestamp, false, ""⟩
                let sends :=
                  participants.filterMap (fanoutStep clientUserId userMap outgoingMsg)
                ⟨false, store1, sends, [],
                  .persist messageId :: sends.map (fun pr => .send pr.1 pr.2)⟩

/-- Function `WebsocketHandler.handleMessage`: the discrimination test — a frame
whose read-ack decoding succeeds with a non-empty `MessageId` goes to
`handleReadAcknowledgment`; every other frame goes to the message path. -/
def handleMessage (env : Env) (store : List Message) (client : Session)
    (frame : Frame) : HandleOutcome :=
  match frame.readAckDecode with
  | some readAck =>
    if readAck.messageId ≠ "" then
      let r := handleReadAcknowledgment store client readAck
      ⟨true, r.1, r.2, [], []⟩
    else messagePath env store client.userId frame
  | none => messagePath env store client.userId frame

/-- A trace satisfies persist-before-fan-out when every send event is
preceded by a persist event carrying the very message id the sent frame
names. -/
def persistBefore (tr : List HEvent) : Prop :=
  ∀ i u msg, tr.get? i = some (.send u msg) →
    ∃ j, j < i ∧ tr.get? j = some (.persist msg.messageId)

/-! ### Scenario S1 of the specification, as concrete inputs

Users `A` (Alice) and `B` (Bob) are online participants of chat `c1`;
`A` sends `{chatId: "c1", message: "hi", timestamp: 100}`; the store
draws fresh id `"m1"`.  The raw frame decodes as a read ack with a
zero-value `messageId` (its JSON has no `messageId` key) and as the
incoming message. -/

/-- Repository environment of scenario S1. -/
def envS1 : Env where
  chatGet := fun c => if c == "c1" then some ⟨"c1", "chat"⟩ else none
  userGet := fun uid =>
    if uid == "A" then some ⟨"A", "Alice", true⟩
    else if uid == "B" then some ⟨"B", "Bob", true⟩ else none
  getParticipants := fun c =>
    if c == "c1" then some [⟨"p1", "c1", "A"⟩, ⟨"p2", "c1", "B"⟩] else none
  getOnlineUser := fun _ => some [⟨"A", "Alice", true⟩, ⟨"B", "Bob", true⟩]
  freshId := some "m1"

/-- The inbound frame of scenario S1. -/
def frameS1 : Frame := ⟨some ⟨"", "c1"⟩, some ⟨"hi", "c1", 100⟩⟩

/-! ## The in-memory hub (infrastructure/ws, `Hub.Run`)

The hub's `clients` Go map is an association list with unique keys:
insertion replaces any entry under the same key, deletion removes it.
The side effects of the event loop are recorded as lists: `close`d
outbound queues and invocations of the `OnClientUnregister` hook (the
server wires the hook at startup, so it is always non-nil), each
identified by the session the effect was applied to, in order.

The register and unregister branches of `RedisHub.Run` act on the
client table, the closed queues and the hook in exactly the same way;
they only additionally write or delete the presence key on Redis, which
no claim about these branches mentions. -/

/-- Go map read `m[k]`. -/
def lookupA {α : Type} (k : String) (l : List (String × α)) : Option α :=
  (l.find? (fun p => p.1 == k)).map (fun p => p.2)

/-- Go map `delete(m, k)`. -/
def eraseA {α : Type} (k : String) (l : List (String × α)) : List (String × α) :=
  l.filter (fun p => p.1 != k)

/-- Go map write `m[k] = v`. -/
def insertA {α : Type} (k : String) (v : α) (l : List (String × α)) :
    List (String × α) :=
  (k, v) :: eraseA k l

/-- The state `Hub.Run` maintains and the side effects it has emitted. -/
structure HubState where
  clients : List (String × Session)
  closedQueues : List Nat
  hookRuns : List Nat
deriving DecidableEq

/-- One event consumed by `Hub.Run`'s select loop (the broadcast case is
not needed by any claim). -/
inductive HubEvent where
  | register (client : Session)
  | unregister (client : Session)
deriving DecidableEq

/-- One iteration of `Hub.Run`.  Register: `h.clients[client.UserId] =
client`.  Unregister: if the user id is a key of the map, delete the
entry and `close(client.send)` — the queue of the session carried by
the event; then, in every case, invoke `OnClientUnregister(client)`. -/
def hubStep (st : HubState) (ev : HubEvent) : HubState :=
  match ev with
  | .register client =>
    { st with clients := insertA client.userId client st.clients }
  | .unregister client =>
    let st1 :=
      if (lookupA client.userId st.clients).isSome then
        { st with clients := eraseA client.userId st.clients,
                  closedQueues := st.closedQueues ++ [client.sid] }
      else st
    { st1 with hookRuns := st1.hookRuns ++ [client.sid] }

/-- Iterating `Hub.Run` over a finite event sequence. -/
def hubRun (st : HubState) (evs : List HubEvent) : HubState :=
  evs.foldl hubStep st

/-! ## The Redis-backed hub (infrastructure/ws/hub_redis.go)

`RedisHub.SendToClient`, `RedisHub.publishToRedis` and the body of
`RedisHub.subscribeRedis` are pure given a snapshot of the `clients`
map, so they are embedded as functions from snapshots to the list of
actions they perform.  The subscriber loop reads the map twice — once
for its own membership test and once inside `SendToClient` — under
separate lock acquisitions, so the two reads may observe different
snapshots; the embedding takes them as two arguments. -/

/-- Go struct `RedisMessage` — the bus envelope. -/
structure RedisMessage where
  fromServerId : String
  toUserId : String
  payload : String
deriving DecidableEq

/-- A local client as `RedisHub` sees it: session identity, and whether
the non-blocking send into its buffered `send` channel would currently
fall into the `default` branch. -/
structure RClient where
  sid : Nat
  userId : String
  queueFull : Bool
deriving DecidableEq

/-- The externally visible actions of the `RedisHub` send/receive paths. -/
inductive RedisAction where
  | lookup (userId : String)
  | enqueue (sid : Nat) (payload : String)
  | dropFull (userId : String)
  | publish (msg : RedisMessage)
deriving DecidableEq

/-- Function `RedisHub.publishToRedis`: wrap the payload in an envelope stamped
with this instance's server id and publish it (marshalling a
`RedisMessage` cannot fail). -/
def publishToRedis (serverID : String) (userID : String) (message : String) :
    List RedisAction :=
  [.publish ⟨serverID, userID, message⟩]

/-- Function `RedisHub.SendToClient`: look the user up in the local map; if
present, non-blocking enqueue into their queue (dropping on a full
queue); if absent, publish to Redis. -/
def SendToClient (serverID : String) (clients : List (String × RClient))
    (userID : String) (message : String) : List RedisAction :=
  .lookup userID ::
    match lookupA userID clients with
    | some client =>
      if client.queueFull then [.dropFull userID] else [.enqueue client.sid message]
    | none => publishToRedis serverID userID message

/-- One iteration of `RedisHub.subscribeRedis` on a received bus
message: decode (`none` models an unmarshal error), drop envelopes this
instance published itself, test local membership, and hand local
deliveries to `SendToClient`.  `clientsAtCheck` is the map snapshot at
the membership test, `clientsAtSend` the snapshot `SendToClient`
observes. -/
def subscribeRedisStep (serverID : String)
    (clientsAtCheck clientsAtSend : List (String × RClient))
    (raw : Option RedisMessage) : List RedisAction :=
  match raw with
  | none => []
  | some redisMsg =>
    if redisMsg.fromServerId == serverID then []
    else
      .lookup redisMsg.toUserId ::
        if (lookupA redisMsg.toUserId clientsAtCheck).isSome then
          SendToClient serverID clientsAtSend redisMsg.toUserId redisMsg.payload
        else []

/-! ## Association-list lemmas for the hub client table -/

/-- Deleting a key removes it from lookup. -/
theorem lookupA_eraseA {α : Type} (k : String) (l : List (String × α)) :
    lookupA k (eraseA k l) = none := by
  induction l with
  | nil => rfl
  | cons p t ih =>
    by_cases h : p.1 = k
    · simpa [eraseA, h] using ih
    · simpa [lookupA, eraseA, List.find?, h] using ih

/-- After erasing a key, no entry with that key remains. -/
theorem filter_eraseA {α : Type} (k : String) (l : List (String × α)) :
    (eraseA k l).filter (fun p => p.1 == k) = [] := by
  unfold eraseA
  refine List.filter_eq_nil.mpr ?_
  intro p hp
  have h := (List.mem_filter.mp hp).2
  simp only [bne_iff_ne, ne_eq] at h
  simp [h]

/-- An unregister event whose user id is absent from the table touches
only the hook log. -/
theorem hubStep_unregister_absent (st : HubState) (s : Session)
    (h : lookupA s.userId st.clients = none) :
    hubStep st (.unregister s) = { st with hookRuns := st.hookRuns ++ [s.sid] } := by
  unfold hubStep
  simp [h]

/-- After any unregister event for session `s`, the user id of `s` is
not a key of the client table. -/
theorem lookupA_after_unregister (st : HubState) (s : Session) :
    lookupA s.userId (hubStep st (.unregister s)).clients = none := by
  unfold hubStep
  by_cases h : (lookupA s.userId st.clients).isSome
  · simp [h, lookupA_eraseA]
  · simp only [h, if_neg, Bool.false_eq_true, not_false_eq_true, ite_false]
    exact Option.not_isSome_iff_eq_none.mp h

/-! ## Claim C2 — unregister idempotence and the unregister hook -/

/-- Claim C2, counterexample.  Register session `⟨1, "A"⟩`, unregister
it, then process a second unregister for the same session: the client
table is unchanged, but the `OnClientUnregister` hook runs a second
time (`hookRuns` grows from `[1]` to `[1, 1]`), contradicting the
claim that the hook does not fire again. -/
theorem hub_second_unregister_refires_hook :
    ((hubRun ⟨[], [], []⟩
        [.register ⟨1, "A"⟩, .unregister ⟨1, "A"⟩, .unregister ⟨1, "A"⟩]).clients
      = (hubRun ⟨[], [], []⟩ [.register ⟨1, "A"⟩, .unregister ⟨1, "A"⟩]).clients) ∧
    (hubRun ⟨[], [], []⟩ [.register ⟨1, "A"⟩, .unregister ⟨1, "A"⟩]).hookRuns = [1] ∧
    (hubRun ⟨[], [], []⟩
        [.register ⟨1, "A"⟩, .unregister ⟨1, "A"⟩, .unregister ⟨1, "A"⟩]).hookRuns
      = [1, 1] := by
  decide

/-- Claim C2, amended.  After the hub has processed one unregister
event for a session, a second unregister event for the same session
leaves the client table and the list of closed queues unchanged, but
invokes the `OnClientUnregister` hook once more: the hook call sits
outside the membership test, so it runs on every unregister event. -/
theorem hub_second_unregister_table_stable (st : HubState) (s : Session) :
    (hubStep (hubStep st (.unregister s)) (.unregister s)).clients
        = (hubStep st (.unregister s)).clients ∧
    (hubStep (hubStep st (.unregister s)) (.unregister s)).closedQueues
        = (hubStep st (.unregister s)).closedQueues ∧
    (hubStep (hubStep st (.unregister s)) (.unregister s)).hookRuns
        = (hubStep st (.unregister s)).hookRuns ++ [s.sid] := by
  rw [hubStep_unregister_absent _ _ (lookupA_after_unregister st s)]
  exact ⟨rfl, rfl, rfl⟩

/-! ## Claim C3 — re-registration replaces without draining -/

/-- Claim C3, counterexample.  Register session `⟨1, "A"⟩` and then a
second session `⟨2, "A"⟩` for the same user: the table holds exactly
the latest session, but no queue was closed and no hook ran, so the
prior session was not drained — contradicting the claim. -/
theorem hub_reregister_no_drain :
    (hubRun ⟨[], [], []⟩ [.register ⟨1, "A"⟩, .register ⟨2, "A"⟩]).clients
      = [("A", ⟨2, "A"⟩)] ∧
    (hubRun ⟨[], [], []⟩ [.register ⟨1, "A"⟩, .register ⟨2, "A"⟩]).closedQueues = [] ∧
    (hubRun ⟨[], [], []⟩ [.register ⟨1, "A"⟩, .register ⟨2, "A"⟩]).hookRuns = [] := by
  decide

/-- Claim C3, amended.  Registering a second session for a user leaves
the client table with exactly one entry for that user — the latest
session — but the prior session is not drained: the register branch is
a bare map assignment, so no queue is closed and no unregister hook
runs while the registration is processed. -/
theorem hub_reregister_replaces (st : HubState) (s2 : Session) :
    lookupA s2.userId (hubStep st (.register s2)).clients = some s2 ∧
    ((hubStep st (.register s2)).clients.filter
        (fun p => p.1 == s2.userId)).length = 1 ∧
    (hubStep st (.register s2)).closedQueues = st.closedQueues ∧
    (hubStep st (.register s2)).hookRuns = st.hookRuns := by
  refine ⟨?_, ?_, rfl, rfl⟩
  · simp [hubStep, insertA, lookupA, List.find?]
  · simp [hubStep, insertA, List.filter, filter_eraseA]

/-! ## Claim C8 — stale unregister evicts the newer session -/

/-- Claim C8, counterexample.  The table maps `"A"` to the newer
session `⟨2, "A"⟩`; processing an unregister event carrying the stale
session `⟨1, "A"⟩` deletes the newer session's table entry, but the
queue it closes is the stale session's (`sid = 1`), not the newer
session's (`sid = 2`) — contradicting the claim's second half. -/
theorem hub_stale_unregister_closes_stale_queue :
    lookupA "A" (hubStep ⟨[("A", ⟨2, "A"⟩)], [], []⟩
        (HubEvent.unregister ⟨1, "A"⟩)).clients = none ∧
    (hubStep ⟨[("A", ⟨2, "A"⟩)], [], []⟩
        (HubEvent.unregister ⟨1, "A"⟩)).closedQueues = [1] ∧
    ¬ 2 ∈ (hubStep ⟨[("A", ⟨2, "A"⟩)], [], []⟩
        (HubEvent.unregister ⟨1, "A"⟩)).closedQueues := by
  decide

/-- Claim C8, amended.  The unregister branch tests membership by user
id alone: an unregister event carrying a stale session whose user id
currently maps to a newer session deletes the newer session's table
entry, yet closes the outbound queue of the stale session carried by
the event — the newer session's queue is not the one closed. -/
theorem hub_stale_unregister_evicts_newer (st : HubState) (s1 s2 : Session)
    (h1 : s1.userId = s2.userId)
    (h2 : lookupA s2.userId st.clients = some s2) :
    lookupA s2.userId (hubStep st (.unregister s1)).clients = none ∧
    (hubStep st (.unregister s1)).closedQueues = st.closedQueues ++ [s1.sid] ∧
    (hubStep st (.unregister s1)).hookRuns = st.hookRuns ++ [s1.sid] := by
  have hsome : (lookupA s2.userId st.clients).isSome = true := by
    rw [h2]; rfl
  unfold hubStep
  simp [h1, hsome, lookupA_eraseA]

/-- Claim C8, witness for the amended theorem at a concrete state. -/
theorem hub_stale_unregister_evicts_newer_witness :
    lookupA "A" (hubStep ⟨[("A", ⟨2, "A"⟩)], [], []⟩
        (HubEvent.unregister ⟨1, "A"⟩)).clients = none ∧
    (hubStep ⟨[("A", ⟨2, "A"⟩)], [], []⟩
        (HubEvent.unregister ⟨1, "A"⟩)).closedQueues = [] ++ [1] ∧
    (hubStep ⟨[("A", ⟨2, "A"⟩)], [], []⟩
        (HubEvent.unregister ⟨1, "A"⟩)).hookRuns = [] ++ [1] :=
  hub_stale_unregister_evicts_newer ⟨[("A", ⟨2, "A"⟩)], [], []⟩ ⟨1, "A"⟩ ⟨2, "A"⟩
    rfl (by decide)

/-! ## Claim C7 — loopback suppression -/

/-- Claim C7.  The subscriber loop performs no action at all on a bus
envelope whose `fromServerId` equals this instance's own server id: no
local table lookup is reached, no queue is enqueued, the envelope is
dropped — under any pair of table snapshots. -/
theorem subscribe_loopback_suppressed (serverID : String)
    (clientsAtCheck clientsAtSend : List (String × RClient)) (m : RedisMessage)
    (h : m.fromServerId = serverID) :
    subscribeRedisStep serverID clientsAtCheck clientsAtSend (some m) = [] := by
  simp [subscribeRedisStep, h]

/-- Claim C7, witness: a loopback envelope is dropped even when the
target user is connected locally. -/
theorem subscribe_loopback_suppressed_witness :
    subscribeRedisStep "server-1" [("B", ⟨1, "B", false⟩)] [("B", ⟨1, "B", false⟩)]
      (some ⟨"server-1", "B", "hi"⟩) = [] :=
  subscribe_loopback_suppressed "server-1" [("B", ⟨1, "B", false⟩)]
    [("B", ⟨1, "B", false⟩)] ⟨"server-1", "B", "hi"⟩ rfl

/-! ## Claim C10 — publish on local absence, also from the subscriber -/

/-- Claim C10.  First part: `RedisHub.SendToClient` publishes a bus
envelope stamped with this instance's own server id whenever the target
user is absent from the local table snapshot it observes.  Second part:
in the subscriber loop, if the membership test sees the target user but
the table snapshot observed by the inner `SendToClient` call no longer
contains them, the instance re-publishes the payload to the bus under
its own server id instead of dropping it. -/
theorem send_absent_republishes (serverID : String) :
    (∀ (clients : List (String × RClient)) (userID message : String),
       lookupA userID clients = none →
       SendToClient serverID clients userID message =
         [.lookup userID, .publish ⟨serverID, userID, message⟩]) ∧
    (∀ (clientsAtCheck clientsAtSend : List (String × RClient)) (m : RedisMessage),
       m.fromServerId ≠ serverID →
       (lookupA m.toUserId clientsAtCheck).isSome = true →
       lookupA m.toUserId clientsAtSend = none →
       subscribeRedisStep serverID clientsAtCheck clientsAtSend (some m) =
         [.lookup m.toUserId, .lookup m.toUserId,
          .publish ⟨serverID, m.toUserId, m.payload⟩]) := by
  constructor
  · intro clients userID message h
    simp [SendToClient, publishToRedis, h]
  · intro clientsAtCheck clientsAtSend m hfrom hcheck hsend
    simp [subscribeRedisStep, hfrom, hcheck, SendToClient, publishToRedis, hsend]

/-- Claim C10, witness: the user `"B"` left the local table between the
subscriber's membership test and the send — the payload is re-published
under this instance's own id. -/
theorem send_absent_republishes_witness :
    SendToClient "server-1" [] "B" "hi" =
      [.lookup "B", .publish ⟨"server-1", "B", "hi"⟩] ∧
    subscribeRedisStep "server-1" [("B", ⟨1, "B", false⟩)] [] (some ⟨"server-2", "B", "hi"⟩) =
      [.lookup "B", .lookup "B", .publish ⟨"server-1", "B", "hi"⟩] :=
  ⟨(send_absent_republishes "server-1").1 [] "B" "hi" rfl,
   (send_absent_republishes "server-1").2 [("B", ⟨1, "B", false⟩)] []
     ⟨"server-2", "B", "hi"⟩ (by decide) (by decide) rfl⟩

/-! ## Claim C9 — the read-ack effect depends only on the message id -/

/-- Claim C9.  Two read-ack frames with the same `messageId`, however
their `chatId` fields differ and whichever connected user's session
they arrive on, produce identical results (same store, same fan-out):
neither the `chatId` nor the acking user's chat membership is consulted. -/
theorem readAck_depends_only_on_messageId (store : List Message)
    (c1 c2 : Session) (a1 a2 : MessageReadAck)
    (h : a1.messageId = a2.messageId) :
    handleReadAcknowledgment store c1 a1 = handleReadAcknowledgment store c2 a2 := by
  simp only [handleReadAcknowledgment, h]

/-- Claim C9, witness: same message id, different chat ids, different
acking sessions — identical effect. -/
theorem readAck_depends_only_on_messageId_witness :
    handleReadAcknowledgment [⟨"m1", "c1", "A", "hi", 100, false⟩] ⟨1, "B"⟩ ⟨"m1", "c1"⟩
      = handleReadAcknowledgment [⟨"m1", "c1", "A", "hi", 100, false⟩] ⟨2, "Z"⟩ ⟨"m1", "c9"⟩ :=
  readAck_depends_only_on_messageId [⟨"m1", "c1", "A", "hi", 100, false⟩]
    ⟨1, "B"⟩ ⟨2, "Z"⟩ ⟨"m1", "c1"⟩ ⟨"m1", "c9"⟩ rfl

/-! ## Claim C6 — effect of a read acknowledgment -/

/-- Looking up the updated key after `msgUpdate` yields the stored
document with only the `$set` fields rewritten. -/
theorem msgGet_msgUpdate (store : List Message) (m2 : Message) (key : String)
    (hk : m2.id = key) :
    msgGet (msgUpdate store m2) key =
      (msgGet store key).map (fun d =>
        { d with message := m2.message, isRead := m2.isRead, timestamp := m2.timestamp }) := by
  subst hk
  unfold msgGet msgUpdate
  rw [List.find?_map]
  have hcomp : ((fun (d : Message) => d.id == m2.id) ∘ fun (d : Message) =>
      if d.id == m2.id then
        { d with message := m2.message, isRead := m2.isRead, timestamp := m2.timestamp }
      else d) = (fun (d : Message) => d.id == m2.id) := by
    funext d
    by_cases h : d.id = m2.id <;> simp [h]
  rw [hcomp]
  cases hf : List.find? (fun d => d.id == m2.id) store with
  | none => rfl
  | some a =>
    have ha : a.id = m2.id := by simpa using List.find?_some hf
    simp [ha]

/-- Claim C6.  A read acknowledgment produces no fan-out; when the
named message is persisted, processing the ack leaves the store with
that message's `isRead` set to `true` and its `id`, `chatId`,
`senderId`, `message` and `timestamp` unchanged; when the load fails,
the store is untouched. -/
theorem readAck_effect (store : List Message) (client : Session)
    (ack : MessageReadAck) :
    (handleReadAcknowledgment store client ack).2 = [] ∧
    (∀ m, msgGet store ack.messageId = some m →
       msgGet (handleReadAcknowledgment store client ack).1 ack.messageId
         = some { m with isRead := true }) ∧
    (msgGet store ack.messageId = none →
       (handleReadAcknowledgment store client ack).1 = store) := by
  refine ⟨?_, ?_, ?_⟩
  · unfold handleReadAcknowledgment MarkAsRead
    cases h : msgGet store ack.messageId <;> simp
  · intro m hm
    have hid : m.id = ack.messageId := by
      have := List.find?_some hm
      simpa using this
    unfold handleReadAcknowledgment MarkAsRead
    rw [hm]
    rw [msgGet_msgUpdate store { m with isRead := true } ack.messageId hid, hm]
    rfl
  · intro hm
    unfold handleReadAcknowledgment MarkAsRead
    rw [hm]

/-- Claim C6, witness: acknowledging the persisted message `"m1"` flips
only its `isRead` flag and sends nothing. -/
theorem readAck_effect_witness :
    (handleReadAcknowledgment [⟨"m1", "c1", "A", "hi", 100, false⟩] ⟨1, "B"⟩
        ⟨"m1", "c1"⟩).2 = [] ∧
    msgGet (handleReadAcknowledgment [⟨"m1", "c1", "A", "hi", 100, false⟩] ⟨1, "B"⟩
        ⟨"m1", "c1"⟩).1 "m1" = some ⟨"m1", "c1", "A", "hi", 100, true⟩ :=
  ⟨(readAck_effect [⟨"m1", "c1", "A", "hi", 100, false⟩] ⟨1, "B"⟩ ⟨"m1", "c1"⟩).1,
   (readAck_effect [⟨"m1", "c1", "A", "hi", 100, false⟩] ⟨1, "B"⟩ ⟨"m1", "c1"⟩).2.1
     ⟨"m1", "c1", "A", "hi", 100, false⟩ (by decide)⟩

/-! ## Helper lemmas on the delivery pipeline -/

/-- The read-ack path issues no fan-out sends. -/
theorem handleReadAck_snd (store : List Message) (client : Session)
    (readAck : MessageReadAck) :
    (handleReadAcknowledgment store client readAck).2 = [] := by
  unfold handleReadAcknowledgment
  cases MarkAsRead store readAck.messageId <;> rfl

/-- The message path never reports taking the read-ack branch. -/
theorem messagePath_tookReadAck (env : Env) (store : List Message)
    (cu : String) (frame : Frame) :
    (messagePath env store cu frame).tookReadAck = false := by
  unfold messagePath
  dsimp only
  repeat' split <;> try rfl

/-- A fan-out step on the sender produces nothing. -/
theorem fanoutStep_self (cu : String) (um : List String) (v : OutgoingMessage)
    (p : ChatParticipant) (h : p.userId = cu) :
    fanoutStep cu um v p = none := by
  simp [fanoutStep, h]

/-- A fan-out step on an online non-sender participant produces the one
marshalled frame addressed to them. -/
theorem fanoutStep_online (cu : String) (um : List String) (v : OutgoingMessage)
    (p : ChatParticipant) (h1 : ¬p.userId = cu) (h2 : p.userId ∈ um) :
    fanoutStep cu um v p = some (p.userId, v) := by
  simp [fanoutStep, h1, h2]

/-- A fan-out step on an offline participant produces nothing. -/
theorem fanoutStep_offline (cu : String) (um : List String) (v : OutgoingMessage)
    (p : ChatParticipant) (h1 : ¬p.userId = cu) (h2 : ¬p.userId ∈ um) :
    fanoutStep cu um v p = none := by
  simp [fanoutStep, h1, h2]

/-- Every pair produced by the fan-out `filterMap` carries the one
marshalled frame. -/
theorem sends_snd_eq (ps : List ChatParticipant) (cu : String) (um : List String)
    (v : OutgoingMessage) :
    ∀ pr ∈ ps.filterMap (fanoutStep cu um v), pr.2 = v := by
  intro pr hpr
  rw [List.mem_filterMap] at hpr
  obtain ⟨p, _, hp⟩ := hpr
  unfold fanoutStep at hp
  split_ifs at hp
  rw [← Option.some.inj hp]

/-- The empty trace trivially satisfies persist-before-fan-out. -/
theorem persistBefore_nil : persistBefore [] := by
  intro i u msg h
  simp at h

/-- A trace holding a lone persist event satisfies
persist-before-fan-out. -/
theorem persistBefore_single (mid : String) : persistBefore [.persist mid] := by
  intro i u msg h
  cases i with
  | zero => simp at h
  | succ n => simp at h

/-- A persist event followed only by sends of frames naming its id
satisfies persist-before-fan-out. -/
theorem persistBefore_cons (mid : String) (l : List HEvent)
    (h : ∀ e ∈ l, ∀ u msg, e = .send u msg → msg.messageId = mid) :
    persistBefore (.persist mid :: l) := by
  intro i u msg hi
  cases i with
  | zero => simp at hi
  | succ n =>
    refine ⟨0, Nat.succ_pos n, ?_⟩
    have he : HEvent.send u msg ∈ l := List.get?_mem (by simpa using hi)
    have hmid := h _ he u msg rfl
    simp [hmid]

/-- Persist-before-fan-out and store containment, for the message path. -/
theorem messagePath_persist_fanout (env : Env) (store : List Message)
    (cu : String) (frame : Frame) :
    (∀ pr ∈ (messagePath env store cu frame).sends,
       ∃ m ∈ (messagePath env store cu frame).store, m.id = pr.2.messageId) ∧
    persistBefore (messagePath env store cu frame).trace := by
  unfold messagePath
  cases hin : frame.incomingDecode with
  | none => exact ⟨by simp, persistBefore_nil⟩
  | some message =>
  dsimp only
  cases hchat : env.chatGet message.chatId with
  | none => exact ⟨by simp, persistBefore_nil⟩
  | some chat =>
  dsimp only
  cases hs : env.userGet cu with
  | none => exact ⟨by simp, persistBefore_nil⟩
  | some sender =>
  dsimp only
  cases hf : env.freshId with
  | none => exact ⟨by simp, persistBefore_nil⟩
  | some mid =>
  dsimp only
  cases hp : env.getParticipants chat.id with
  | none => exact ⟨by simp, persistBefore_single mid⟩
  | some ps =>
  dsimp only
  by_cases hlen : ps.length = 0
  · rw [if_pos hlen]
    exact ⟨by simp, persistBefore_single mid⟩
  · rw [if_neg hlen]
    cases hon : env.getOnlineUser (ps.map fun p => p.userId) with
    | none => exact ⟨by simp, persistBefore_single mid⟩
    | some onlineUsers =>
      dsimp only
      constructor
      · intro pr hpr
        have h2 := sends_snd_eq ps cu (onlineUsers.map fun u => u.id)
          ⟨mid, cu, sender.name, message.message, message.timestamp, false, ""⟩ pr hpr
        refine ⟨⟨mid, message.chatId, cu, message.message, message.timestamp, false⟩,
          by simp, ?_⟩
        rw [h2]
      · refine persistBefore_cons mid _ ?_
        intro e he u msg hem
        rw [List.mem_map] at he
        obtain ⟨pr, hpr, hepr⟩ := he
        have h2 := sends_snd_eq ps cu (onlineUsers.map fun u => u.id)
          ⟨mid, cu, sender.name, message.message, message.timestamp, false, ""⟩ pr hpr
        rw [hem] at hepr
        cases hepr
        rw [h2]

/-! ## Claim C4 — persist before fan-out -/

/-- Claim C4.  For every `Hub.SendToClient` call the message path
issues, a persisted message whose id equals the sent frame's
`messageId` is in the store after the call, and in the event trace the
persist event precedes every send event carrying its id. -/
theorem persist_before_fanout (env : Env) (store : List Message)
    (client : Session) (frame : Frame) :
    (∀ pr ∈ (handleMessage env store client frame).sends,
       ∃ m ∈ (handleMessage env store client frame).store, m.id = pr.2.messageId) ∧
    persistBefore (handleMessage env store client frame).trace := by
  unfold handleMessage
  cases hra : frame.readAckDecode with
  | none => exact messagePath_persist_fanout env store client.userId frame
  | some readAck =>
    by_cases h : readAck.messageId = ""
    · simp only [h, ne_eq, not_true_eq_false, ite_false]
      exact messagePath_persist_fanout env store client.userId frame
    · simp only [ne_eq, h, not_false_eq_true, ite_true]
      refine ⟨?_, persistBefore_nil⟩
      intro pr hpr
      rw [show (handleReadAcknowledgment store client readAck).2 = []
        from handleReadAck_snd store client readAck] at hpr
      simp at hpr

/-- Claim C4, witness: in scenario S1 the frame sent to `B` names
message id `"m1"`, and a message with id `"m1"` is in the store. -/
theorem persist_before_fanout_witness :
    ∃ m ∈ (handleMessage envS1 [] ⟨1, "A"⟩ frameS1).store,
      m.id = (("B", (⟨"m1", "A", "Alice", "hi", 100, false, ""⟩ : OutgoingMessage))
        : String × OutgoingMessage).2.messageId :=
  (persist_before_fanout envS1 [] ⟨1, "A"⟩ frameS1).1
    ("B", ⟨"m1", "A", "Alice", "hi", 100, false, ""⟩) (by decide)

/-! ## Claim C5 — frame classification -/

/-- Claim C5.  The handler takes the read-ack path exactly when the
frame's read-ack decoding succeeds with a non-empty `messageId`; every
other frame is handed to the message path. -/
theorem frame_classification (env : Env) (store : List Message)
    (client : Session) (frame : Frame) :
    ((handleMessage env store client frame).tookReadAck = true ↔
       ∃ ra, frame.readAckDecode = some ra ∧ ra.messageId ≠ "") ∧
    ((handleMessage env store client frame).tookReadAck = false →
       handleMessage env store client frame
         = messagePath env store client.userId frame) := by
  unfold handleMessage
  cases hra : frame.readAckDecode with
  | none =>
    dsimp only
    refine ⟨?_, fun _ => rfl⟩
    rw [messagePath_tookReadAck]
    simp
  | some readAck =>
    dsimp only
    by_cases h : readAck.messageId = ""
    · rw [if_neg (show ¬readAck.messageId ≠ "" from fun hn => hn h)]
      refine ⟨?_, fun _ => rfl⟩
      rw [messagePath_tookReadAck]
      simp [h]
    · rw [if_pos (show readAck.messageId ≠ "" from h)]
      refine ⟨iff_of_true rfl ⟨readAck, rfl, h⟩, ?_⟩
      intro hfalse
      exact Bool.noConfusion hfalse

/-- Claim C5, witness: a frame decoding as a read ack with the
non-empty `messageId` `"m1"` takes the read-ack path. -/
theorem frame_classification_witness :
    (handleMessage envS1 [] ⟨1, "A"⟩ ⟨some ⟨"m1", "c1"⟩, none⟩).tookReadAck = true :=
  (frame_classification envS1 [] ⟨1, "A"⟩ ⟨some ⟨"m1", "c1"⟩, none⟩).1.mpr
    ⟨⟨"m1", "c1"⟩, rfl, by decide⟩

/-- Recipient multiplicity of the fan-out `filterMap`: when the
participant user ids are distinct, each participant other than the
sender that is in the online set receives exactly one frame, and no
one else receives any. -/
theorem fanout_count (ps : List ChatParticipant) (cu : String) (um : List String)
    (v : OutgoingMessage) (u : String)
    (hnd : (ps.map fun p => p.userId).Nodup) :
    ((ps.filterMap (fanoutStep cu um v)).map Prod.fst).count u =
      if u ∈ ps.map (fun p => p.userId) ∧ u ≠ cu ∧ u ∈ um then 1 else 0 := by
  induction ps with
  | nil => simp
  | cons p t ih =>
    rw [List.map_cons, List.nodup_cons] at hnd
    have hnotin : p.userId ∉ t.map (fun p => p.userId) := hnd.1
    have iht := ih hnd.2
    by_cases h1 : p.userId = cu
    · rw [List.filterMap_cons_none (fanoutStep_self cu um v p h1)]
      rw [iht]
      by_cases hu : u = p.userId
      · simp [hu, h1]
      · simp [hu]
    · by_cases h2 : p.userId ∈ um
      · rw [List.filterMap_cons_some (fanoutStep_online cu um v p h1 h2)]
        rw [List.map_cons, List.count_cons, iht]
        by_cases hu : p.userId = u
        · subst hu
          simp [hnotin, h1, h2]
        · have hu2 : ¬u = p.userId := fun he => hu he.symm
          simp [hu, hu2]
      · rw [List.filterMap_cons_none (fanoutStep_offline cu um v p h1 h2)]
        rw [iht]
        by_cases hu : u = p.userId
        · simp [hu, h2]
        · simp [hu]

/-! ## Claim C1 — fan-out of the message path -/

/-- Claim C1, counterexample.  In scenario S1 the single outbound frame
(sent to `B`) carries `chatId = ""`, not the inbound frame's `"c1"`:
the handler never assigns the struct's `ChatId` field, so it is
serialized with its zero value.  This falsifies the claim's clause
`chatId equal to the inbound frame's chatId`. -/
theorem message_fanout_chatid_empty :
    ((handleMessage envS1 [] ⟨1, "A"⟩ frameS1).sends.map fun pr => pr.2.chatId)
        = [""] ∧
    ¬ ((handleMessage envS1 [] ⟨1, "A"⟩ frameS1).sends.map fun pr => pr.2.chatId)
        = ["c1"] := by
  decide

/-- Claim C1, amended.  When the chat lookup, sender lookup, persist,
participant fetch and online-user lookup all succeed (and the
participant user ids are distinct, which the chat schema provides),
the message path sends exactly one frame to each online participant
other than the sender and none to anyone else, and every frame carries
the persist-time id, the sender's user id and display name, the inbound
message text and timestamp, `isRead = false` — and an *empty* `chatId`,
since the handler never assigns that field. -/
theorem message_fanout (env : Env) (store : List Message) (client : Session)
    (frame : Frame) (message : IncomingMessage) (chat : Chat) (sender : User)
    (messageId : String) (participants : List ChatParticipant)
    (onlineUsers : List User)
    (hdisp : ∀ ra, frame.readAckDecode = some ra → ra.messageId = "")
    (hin : frame.incomingDecode = some message)
    (hchat : env.chatGet message.chatId = some chat)
    (hsender : env.userGet client.userId = some sender)
    (hfresh : env.freshId = some messageId)
    (hparts : env.getParticipants chat.id = some participants)
    (honline : env.getOnlineUser (participants.map fun p => p.userId)
      = some onlineUsers)
    (hnd : (participants.map fun p => p.userId).Nodup) :
    (∀ u, ((handleMessage env store client frame).sends.map Prod.fst).count u =
       if u ∈ participants.map (fun p => p.userId) ∧ u ≠ client.userId
            ∧ u ∈ onlineUsers.map (fun uu => uu.id) then 1 else 0) ∧
    (∀ pr ∈ (handleMessage env store client frame).sends,
       pr.2 = ⟨messageId, client.userId, sender.name, message.message,
         message.timestamp, false, ""⟩) := by
  have hdispatch : handleMessage env store client frame
      = messagePath env store client.userId frame := by
    unfold handleMessage
    cases hra : frame.readAckDecode with
    | none => rfl
    | some ra =>
      dsimp only
      rw [if_neg (fun hn => hn (hdisp ra hra))]
  rw [hdispatch]
  unfold messagePath
  rw [hin]; dsimp only
  rw [hchat]; dsimp only
  rw [hsender]; dsimp only
  rw [hfresh]; dsimp only
  rw [hparts]; dsimp only
  by_cases hlen : participants.length = 0
  · rw [if_pos hlen]
    have hnil : participants = [] := List.length_eq_zero.mp hlen
    refine ⟨?_, by simp⟩
    intro u
    simp [hnil]
  · rw [if_neg hlen]
    rw [honline]; dsimp only
    refine ⟨?_, ?_⟩
    · intro u
      exact fanout_count participants client.userId (onlineUsers.map fun u => u.id)
        _ u hnd
    · exact sends_snd_eq participants client.userId (onlineUsers.map fun u => u.id) _

/-- Claim C1, witness for the amended theorem on scenario S1: exactly
one frame goes to `B`, and every frame sent is
`{messageId: "m1", userId: "A", userName: "Alice", message: "hi",
timestamp: 100, isRead: false, chatId: ""}`. -/
theorem message_fanout_witness :
    ((handleMessage envS1 [] ⟨1, "A"⟩ frameS1).sends.map Prod.fst).count "B" = 1 ∧
    ∀ pr ∈ (handleMessage envS1 [] ⟨1, "A"⟩ frameS1).sends,
      pr.2 = ⟨"m1", "A", "Alice", "hi", 100, false, ""⟩ := by
  have h := message_fanout envS1 [] ⟨1, "A"⟩ frameS1 ⟨"hi", "c1", 100⟩
    ⟨"c1", "chat"⟩ ⟨"A", "Alice", true⟩ "m1"
    [⟨"p1", "c1", "A"⟩, ⟨"p2", "c1", "B"⟩]
    [⟨"A", "Alice", true⟩, ⟨"B", "Bob", true⟩]
    (by intro ra hra; cases hra; rfl) (by decide) (by decide) (by decide)
    (by decide) (by decide) (by decide) (by decide)
  exact ⟨(h.1 "B").trans (by decide), h.2⟩

end WeTalk
